import Mathlib

/-!
Verification of the build-orchestration script `build.py` of the
azurite repository against its natural-language specification.

The script compiles three targets (CLI, builtin plugin libraries,
installer).  Around the plugin-library build it toggles the build-cache
directory between the hidden name ".target" and the visible name
"target", stages the produced shared-library artifacts into the
directory "azurite_libraries" under normalized names, and saves/restores
the process working directory.

Shallow embedding conventions:
* filenames and path components are `List Char`; concrete names are
  written as string literals via `String.toList`;
* the staging directory is a presence flag plus an association list from
  staged names to the source filename whose content was copied there
  (the source filename stands for the content of the file);
* the cache-directory state records, for each of the two names, whether
  a directory of that name exists;
* fallible I/O is explicit: a step returns `Option IoError` together
  with the state it leaves behind; the script has no exception handler,
  so a raised error aborts the script at that point (the remaining
  lines, in particular the cache `hide` at lines 33-34 and the
  `os.chdir(cwd)` at line 36, do not run).
-/

/-- A filename or a single path component. -/
abbrev FName := List Char

/-- An absolute path, as the list of its components. -/
abbrev FPath := List (List Char)

/-- I/O errors the script can raise (Python exceptions). -/
inductive IoError where
  /-- `shutil.copy` raised (line 29). -/
  | copyFail : IoError
  /-- `os.listdir` raised (line 24). -/
  | listFail : IoError
  /-- `os.mkdir` raised because the directory exists (line 20 guard). -/
  | fileExists : IoError
  deriving DecidableEq, Repr

/-- `filename.endswith(suffixString)` of `build.py` line 25/27:
the last characters of `f` are exactly `suf`. -/
def endsWith (f suf : FName) : Bool :=
  suf.isSuffixOf f

/-- The artifact classifier inlined at `build.py` lines 25-28:
a filename ending in ".dll", ".so" or "dylib" is an artifact; for
".so" / "dylib" the staged name drops the first 3 characters
(`filename[3:]`), for ".dll" the name is kept; any other filename is
skipped (`none`). -/
def classify (filename : FName) : Option FName :=
  if endsWith filename ".dll".toList ||
      (endsWith filename ".so".toList || endsWith filename "dylib".toList) then
    some (if endsWith filename ".so".toList || endsWith filename "dylib".toList then
            filename.drop 3
          else filename)
  else none

/-- State of the build-cache directory of the plugin workspace: whether a
directory named ".target" (hidden) exists, and whether one named
"target" (visible) exists. -/
structure Cache where
  hiddenEx : Bool
  visibleEx : Bool
  deriving DecidableEq, Repr

/-- The invariant of spec §3: at most one of the two cache names exists. -/
def atMostOne (c : Cache) : Prop :=
  ¬(c.hiddenEx = true ∧ c.visibleEx = true)

instance (c : Cache) : Decidable (atMostOne c) := by
  unfold atMostOne; infer_instance

/-- `build.py` lines 14-15: if ".target" exists, rename it to "target".
(`os.rename` is atomic; on states satisfying `atMostOne` the
destination name does not exist, so the rename succeeds.) -/
def reveal (c : Cache) : Cache :=
  if c.hiddenEx then ⟨false, true⟩ else c

/-- `build.py` lines 33-34: if "target" exists, rename it to ".target". -/
def hide (c : Cache) : Cache :=
  if c.visibleEx then ⟨true, false⟩ else c

/-- State of the staging directory "azurite_libraries": whether it
exists, and its files as an association list staged-name ↦ source
filename (the source filename stands for the copied content). -/
structure Staging where
  present : Bool
  entries : List (FName × FName)
  deriving DecidableEq, Repr

/-- Writing file `k` with content `v` into a directory listing:
overwrites an existing entry of the same name in place, otherwise
appends (`shutil.copy` destination semantics, last-write-wins). -/
def put (es : List (FName × FName)) (k v : FName) : List (FName × FName) :=
  match es with
  | [] => [(k, v)]
  | (k', v') :: rest =>
      if k' = k then (k, v) :: rest else (k', v') :: put rest k v

/-- `shutil.copy(release_folder + filename, library_folder + to_file)`
(line 29) on the staging state. -/
def copyInto (s : Staging) (toFile filename : FName) : Staging :=
  ⟨s.present, put s.entries toFile filename⟩

/-- `build.py` lines 19-20: create "azurite_libraries" if it does not
exist.  `os.mkdir` is never reached when the directory is present. -/
def ensureLibDir (s : Staging) : Staging :=
  if s.present then s else ⟨true, []⟩

/-- Lines 19-20 instrumented with the raw `os.mkdir` outcome: the first
component is the error `os.mkdir` would raise (none here, since the
call is guarded), the second records whether `os.mkdir` was invoked at
all. -/
def ensureLibDirTraced (s : Staging) : Option IoError × Bool × Staging :=
  if s.present then (none, false, s)
  else (none, true, ⟨true, []⟩)

/-- The copy loop of `build.py` lines 24-30: iterate over the release
folder filenames; copy each classified artifact under its staged
name.  `failCopy` lists the filenames whose `shutil.copy` raises; the
loop stops at the first raise, keeping the files already copied (no
rollback). -/
def stageAll (failCopy : List FName) (files : List FName) (s : Staging) :
    Option IoError × Staging :=
  match files with
  | [] => (none, s)
  | f :: rest =>
      match classify f with
      | some toFile =>
          if failCopy.contains f then (some IoError.copyFail, s)
          else stageAll failCopy rest (copyInto s toFile f)
      | none => stageAll failCopy rest s

/-- Lines 19-30 together: ensure the staging directory exists, then run
the copy loop over the contents of the release folder. -/
def stageDirectoryStep (failCopy : List FName) (files : List FName)
    (s : Staging) : Option IoError × Staging :=
  stageAll failCopy files (ensureLibDir s)

/-- The three external compile targets of the script. -/
inductive Stage where
  | cli
  | plugins
  | installer
  deriving DecidableEq, Repr

/-- One external compile invocation (`os.system`, lines 7, 17, 42),
recorded with the working directory it runs in. -/
structure Ev where
  stage : Stage
  dir : FPath
  deriving DecidableEq, Repr

/-- The inputs one run of `build.py` depends on. -/
structure Input where
  /-- `os.getcwd()` at line 4 (an absolute path). -/
  root : FPath
  /-- exit status of `cargo build --release --bin=azurite_cli` (line 7);
  the result of `os.system` is discarded by the script. -/
  cliExit : Nat
  /-- exit status of `cargo build --release` (line 17); discarded. -/
  pluginExit : Nat
  /-- exit status of the installer build (line 42); discarded. -/
  installerExit : Nat
  /-- the filenames `os.listdir(release_folder)` returns (line 24). -/
  releaseFiles : List FName
  /-- filenames whose `shutil.copy` raises (line 29). -/
  failCopy : List FName
  /-- whether `os.listdir(release_folder)` itself raises (line 24). -/
  listdirFails : Bool
  /-- initial cache-directory state in "builtin_libraries". -/
  cache : Cache
  /-- initial state of "azurite_libraries". -/
  staging : Staging
  deriving Repr

/-- Observable outcome of one run of `build.py`. -/
structure Output where
  /-- the uncaught exception the script died with, if any. -/
  err : Option IoError
  /-- the external compile invocations performed, in order. -/
  trace : List Ev
  /-- the process working directory when the script ends. -/
  cwd : FPath
  /-- final cache-directory state. -/
  cache : Cache
  /-- final staging-directory state. -/
  staging : Staging
  deriving DecidableEq, Repr

/-- The directory name the script enters at line 12. -/
def builtinDirName : FName := "builtin_libraries".toList

/-- `build.py` lines 4-43 as one run.  The working directory starts at
`inp.root` (line 4), moves to `root/builtin_libraries` (line 12,
relative `os.chdir`), and returns to `root` at line 36 (absolute
`os.chdir(cwd)`).  An uncaught exception in the staging section aborts
the script there: the `hide` at lines 33-34, the `os.chdir(cwd)` at
line 36 and the installer build at line 42 do not run. -/
def buildScript (inp : Input) : Output :=
  let cwd := inp.root
  let tr1 := [Ev.mk Stage.cli cwd]
  let cwdB := cwd ++ [builtinDirName]
  let c1 := reveal inp.cache
  let tr2 := tr1 ++ [Ev.mk Stage.plugins cwdB]
  let s1 := ensureLibDir inp.staging
  if inp.listdirFails then
    Output.mk (some IoError.listFail) tr2 cwdB c1 s1
  else
    match stageAll inp.failCopy inp.releaseFiles s1 with
    | (some e, s2) => Output.mk (some e) tr2 cwdB c1 s2
    | (none, s2) =>
        Output.mk none (tr2 ++ [Ev.mk Stage.installer cwd]) cwd (hide c1) s2

/-- `inp` with the plugin-library compile exit status replaced by `e`. -/
def withPluginExit (inp : Input) (e : Nat) : Input :=
  Input.mk inp.root inp.cliExit e inp.installerExit inp.releaseFiles
    inp.failCopy inp.listdirFails inp.cache inp.staging

/-- A convenient concrete input for closed instantiations. -/
def sampleRoot : FPath := ["home".toList, "azurite".toList]

/-- `reveal` preserves the at-most-one-name invariant. -/
theorem reveal_keeps_atMostOne (c : Cache) (h : atMostOne c) :
    atMostOne (reveal c) := by
  obtain ⟨a, b⟩ := c
  revert h
  cases a <;> cases b <;> decide

/-- `hide` preserves the at-most-one-name invariant. -/
theorem hide_keeps_atMostOne (c : Cache) (h : atMostOne c) :
    atMostOne (hide c) := by
  obtain ⟨a, b⟩ := c
  revert h
  cases a <;> cases b <;> decide

/-- Claim C1: every filename ending in ".so" or in the five characters
"dylib" is classified, and its staged name is the filename with its
first 3 characters removed, whatever those characters are. -/
theorem classify_strips_first_three (f : FName)
    (h : endsWith f ".so".toList = true ∨ endsWith f "dylib".toList = true) :
    classify f = some (f.drop 3) := by
  have hb : (endsWith f ".so".toList || endsWith f "dylib".toList) = true := by
    rcases h with h | h
    · rw [h]
      exact Bool.true_or _
    · rw [h]
      exact Bool.or_true _
  unfold classify
  rw [hb]
  simp

/-- Witness for C1 at the filename "libfoo.so". -/
theorem classify_strips_first_three_witness :
    classify "libfoo.so".toList = some "foo.so".toList :=
  (classify_strips_first_three "libfoo.so".toList (Or.inl (by decide))).trans
    (by decide)

/-- Claim C3: from any state with at most one of the two cache names
present, `reveal` then `hide` keeps the invariant at every step and
leaves the directory under the hidden name, or absent if it was absent
initially. -/
theorem reveal_hide_roundtrip (c : Cache) (h : atMostOne c) :
    atMostOne (reveal c) ∧ atMostOne (hide (reveal c)) ∧
      hide (reveal c) =
        (if c.hiddenEx || c.visibleEx then Cache.mk true false else c) := by
  obtain ⟨a, b⟩ := c
  revert h
  cases a <;> cases b <;> decide

/-- Witness for C3 at the hidden-exists state. -/
theorem reveal_hide_roundtrip_witness :
    atMostOne (reveal (Cache.mk true false)) ∧
      atMostOne (hide (reveal (Cache.mk true false))) ∧
      hide (reveal (Cache.mk true false)) =
        (if (Cache.mk true false).hiddenEx || (Cache.mk true false).visibleEx
          then Cache.mk true false else Cache.mk true false) :=
  reveal_hide_roundtrip (Cache.mk true false) (by decide)

/-- Claim C7: on states with at most one cache name present, `reveal`
and `hide` are each idempotent. -/
theorem reveal_hide_idempotent (c : Cache) (h : atMostOne c) :
    reveal (reveal c) = reveal c ∧ hide (hide c) = hide c := by
  obtain ⟨a, b⟩ := c
  revert h
  cases a <;> cases b <;> decide

/-- Witness for C7 at the visible-exists state. -/
theorem reveal_hide_idempotent_witness :
    reveal (reveal (Cache.mk false true)) = reveal (Cache.mk false true) ∧
      hide (hide (Cache.mk false true)) = hide (Cache.mk false true) :=
  reveal_hide_idempotent (Cache.mk false true) (by decide)

/-- Claim C4: with release contents ["libcore.so", "core.dll",
"notes.txt", "libextra.dylib"] and the staging directory absent
beforehand, the stage-directory step succeeds, the staging directory
exists afterwards, its file names are exactly core.so, core.dll and
extra.dylib, and notes.txt was not staged. -/
theorem stage_end_to_end :
    (stageDirectoryStep []
        ["libcore.so".toList, "core.dll".toList, "notes.txt".toList,
          "libextra.dylib".toList] (Staging.mk false [])).1 = none ∧
      (stageDirectoryStep []
        ["libcore.so".toList, "core.dll".toList, "notes.txt".toList,
          "libextra.dylib".toList] (Staging.mk false [])).2.present = true ∧
      (stageDirectoryStep []
        ["libcore.so".toList, "core.dll".toList, "notes.txt".toList,
          "libextra.dylib".toList] (Staging.mk false [])).2.entries.map
          Prod.fst =
        ["core.so".toList, "core.dll".toList, "extra.dylib".toList] ∧
      "notes.txt".toList ∉
        (stageDirectoryStep []
          ["libcore.so".toList, "core.dll".toList, "notes.txt".toList,
            "libextra.dylib".toList] (Staging.mk false [])).2.entries.map
            Prod.fst := by
  decide

/-- Claim C10: the classifier is not injective — "libfoo.so" and
"xyzfoo.so" are distinct filenames with the same staged name "foo.so";
staging both in one run keeps a single entry under "foo.so", holding
the content of the later file. -/
theorem classifier_not_injective :
    "libfoo.so".toList ≠ "xyzfoo.so".toList ∧
      classify "libfoo.so".toList = some "foo.so".toList ∧
      classify "xyzfoo.so".toList = some "foo.so".toList ∧
      stageAll [] ["libfoo.so".toList, "xyzfoo.so".toList]
          (Staging.mk true []) =
        (none, Staging.mk true [("foo.so".toList, "xyzfoo.so".toList)]) := by
  decide

/-- Claim C6: a filename ending in none of ".dll", ".so", "dylib" is
not classified, and the copy loop skips it: the staging state after
processing it equals the state from processing the rest alone, with no
error contributed. -/
theorem unrecognized_is_skipped (f : FName) (failCopy rest : List FName)
    (s : Staging)
    (h1 : endsWith f ".dll".toList = false)
    (h2 : endsWith f ".so".toList = false)
    (h3 : endsWith f "dylib".toList = false) :
    classify f = none ∧
      stageAll failCopy (f :: rest) s = stageAll failCopy rest s := by
  have hc : classify f = none := by
    unfold classify
    rw [h1, h2, h3]
    simp
  exact ⟨hc, by rw [stageAll, hc]⟩

/-- Witness for C6 at the filename "notes.txt". -/
theorem unrecognized_is_skipped_witness :
    classify "notes.txt".toList = none ∧
      stageAll [] ["notes.txt".toList, "core.dll".toList]
          (Staging.mk true []) =
        stageAll [] ["core.dll".toList] (Staging.mk true []) :=
  unrecognized_is_skipped "notes.txt".toList [] ["core.dll".toList]
    (Staging.mk true []) (by decide) (by decide) (by decide)

/-- Claim C8: the stage-directory creation step never raises, never
calls `os.mkdir` when the directory already exists, creates it (empty)
when absent, keeps it untouched when present, and in all cases leaves
the directory existing. -/
theorem ensure_lib_dir_safe (s : Staging) :
    (ensureLibDirTraced s).1 = none ∧
      (ensureLibDirTraced s).2.1 = !s.present ∧
      (ensureLibDirTraced s).2.2.present = true ∧
      (ensureLibDirTraced s).2.2 =
        (if s.present then s else Staging.mk true []) := by
  obtain ⟨p, es⟩ := s
  cases p <;> simp [ensureLibDirTraced]

/-- Claim C2 counterexample: in a run whose staging copy raises, the
script dies with the error and the cache directory is left under the
visible name; `hide` was not applied, since applying it would change
that state.  The claim that `hide` is still attempted on a staging
failure is therefore false at this input. -/
theorem hide_skipped_counterexample :
    (buildScript (Input.mk sampleRoot 0 0 0 ["libcore.so".toList]
        ["libcore.so".toList] false (Cache.mk true false)
        (Staging.mk false []))).err = some IoError.copyFail ∧
      (buildScript (Input.mk sampleRoot 0 0 0 ["libcore.so".toList]
        ["libcore.so".toList] false (Cache.mk true false)
        (Staging.mk false []))).cache = Cache.mk false true ∧
      hide (Cache.mk false true) ≠ Cache.mk false true := by
  decide

/-- Claim C2 amended: when the staging step raises an I/O error the
script aborts with that error, so `hide` is never attempted: the cache
directory stays exactly as `reveal` left it (visible, if it existed
under either name).  The at-most-one-name invariant is nevertheless
preserved. -/
theorem hide_skipped_on_staging_error (inp : Input)
    (h : (buildScript inp).err.isSome = true) :
    (buildScript inp).cache = reveal inp.cache ∧
      (atMostOne inp.cache → atMostOne (buildScript inp).cache) := by
  unfold buildScript at h ⊢
  cases hl : inp.listdirFails
  · simp [hl] at h ⊢
    rcases hs : stageAll inp.failCopy inp.releaseFiles
        (ensureLibDir inp.staging) with ⟨oe, s2⟩
    cases oe
    · rw [hs] at h
      simp at h
    · simp
      exact fun hc => reveal_keeps_atMostOne inp.cache hc
  · simp [hl]
    exact fun hc => reveal_keeps_atMostOne inp.cache hc

/-- Witness for the amended C2 at a concrete failing run. -/
theorem hide_skipped_on_staging_error_witness :
    (buildScript (Input.mk sampleRoot 0 0 0 ["libcore.so".toList]
        ["libcore.so".toList] false (Cache.mk true false)
        (Staging.mk false []))).cache = reveal (Cache.mk true false) ∧
      (atMostOne (Cache.mk true false) →
        atMostOne (buildScript (Input.mk sampleRoot 0 0 0
          ["libcore.so".toList] ["libcore.so".toList] false
          (Cache.mk true false) (Staging.mk false []))).cache) :=
  hide_skipped_on_staging_error
    (Input.mk sampleRoot 0 0 0 ["libcore.so".toList] ["libcore.so".toList]
      false (Cache.mk true false) (Staging.mk false [])) (by decide)

/-- Claim C5: the exit status of the plugin-library compile invocation
is discarded — replacing it by any non-zero status yields the very same
run — and in a run with no I/O error the staging and hide steps did
run: the final cache state is `hide (reveal …)` and the final staging
state is the result of the copy loop. -/
theorem plugin_compile_failure_not_blocking (inp : Input) (e : Nat)
    (h : e ≠ 0) :
    buildScript (withPluginExit inp e) = buildScript inp ∧
      ((buildScript inp).err = none →
        (buildScript inp).cache = hide (reveal inp.cache) ∧
          (buildScript inp).staging =
            (stageAll inp.failCopy inp.releaseFiles
              (ensureLibDir inp.staging)).2) := by
  refine ⟨rfl, fun hn => ?_⟩
  unfold buildScript at hn ⊢
  cases hl : inp.listdirFails
  · simp [hl] at hn ⊢
    rcases hs : stageAll inp.failCopy inp.releaseFiles
        (ensureLibDir inp.staging) with ⟨oe, s2⟩
    cases oe
    · simp
    · rw [hs] at hn
      simp at hn
  · simp [hl] at hn

/-- Witness for C5: a concrete run with plugin compile exit status 1. -/
theorem plugin_compile_failure_not_blocking_witness :
    buildScript (withPluginExit (Input.mk sampleRoot 0 0 0
        ["libcore.so".toList] [] false (Cache.mk true false)
        (Staging.mk false [])) 1) =
      buildScript (Input.mk sampleRoot 0 0 0 ["libcore.so".toList] []
        false (Cache.mk true false) (Staging.mk false [])) ∧
      ((buildScript (Input.mk sampleRoot 0 0 0 ["libcore.so".toList] []
          false (Cache.mk true false) (Staging.mk false []))).err = none →
        (buildScript (Input.mk sampleRoot 0 0 0 ["libcore.so".toList] []
          false (Cache.mk true false) (Staging.mk false []))).cache =
            hide (reveal (Cache.mk true false)) ∧
          (buildScript (Input.mk sampleRoot 0 0 0 ["libcore.so".toList] []
            false (Cache.mk true false) (Staging.mk false []))).staging =
            (stageAll [] ["libcore.so".toList]
              (ensureLibDir (Staging.mk false []))).2) :=
  plugin_compile_failure_not_blocking
    (Input.mk sampleRoot 0 0 0 ["libcore.so".toList] [] false
      (Cache.mk true false) (Staging.mk false [])) 1 (by decide)

/-- Claim C9: in every run the CLI compile happens in the original
working directory, the plugin-library compile happens in its
`builtin_libraries` subdirectory, the installer compile — whenever it
is reached — happens in the original directory again, and a run that
raises no error ends with the working directory restored to its
original value. -/
theorem cwd_changed_only_for_plugins (inp : Input) :
    ((buildScript inp).trace =
        [Ev.mk Stage.cli inp.root,
          Ev.mk Stage.plugins (inp.root ++ [builtinDirName])] ∨
      (buildScript inp).trace =
        [Ev.mk Stage.cli inp.root,
          Ev.mk Stage.plugins (inp.root ++ [builtinDirName]),
          Ev.mk Stage.installer inp.root]) ∧
      ((buildScript inp).err = none → (buildScript inp).cwd = inp.root) := by
  unfold buildScript
  cases hl : inp.listdirFails
  · rcases hs : stageAll inp.failCopy inp.releaseFiles
        (ensureLibDir inp.staging) with ⟨oe, s2⟩
    cases oe <;> simp [hl, hs]
  · simp [hl]

/-- Witness for C9 at a concrete run. -/
theorem cwd_changed_only_for_plugins_witness :
    ((buildScript (Input.mk sampleRoot 0 0 0 [] [] false
        (Cache.mk true false) (Staging.mk false []))).trace =
        [Ev.mk Stage.cli sampleRoot,
          Ev.mk Stage.plugins (sampleRoot ++ [builtinDirName])] ∨
      (buildScript (Input.mk sampleRoot 0 0 0 [] [] false
        (Cache.mk true false) (Staging.mk false []))).trace =
        [Ev.mk Stage.cli sampleRoot,
          Ev.mk Stage.plugins (sampleRoot ++ [builtinDirName]),
          Ev.mk Stage.installer sampleRoot]) ∧
      ((buildScript (Input.mk sampleRoot 0 0 0 [] [] false
          (Cache.mk true false) (Staging.mk false []))).err = none →
        (buildScript (Input.mk sampleRoot 0 0 0 [] [] false
          (Cache.mk true false) (Staging.mk false []))).cwd = sampleRoot) :=
  cwd_changed_only_for_plugins
    (Input.mk sampleRoot 0 0 0 [] [] false (Cache.mk true false)
      (Staging.mk false []))
